import Mathlib

/- Shallow embedding of the credential and identity-verification lifecycle of
the ResearchLLM Pro repository.  The client-side definitions are translated
from src/frontend/src/utils/auth.ts and the auth components
(RegisterForm.tsx, ForgotPasswordForm, PasswordResetPage,
EmailVerificationPrompt).  The server-side operations are not present in the
sources, so they are modelled from the specification where indicated. -/

namespace ResearchLLM

/- JavaScript string primitives, embedded over lists of characters.
splitChar embeds String.prototype.split with a one-character separator,
trimChars embeds String.prototype.trim, hasSub embeds
String.prototype.includes. -/

def splitChar (sep : Char) : List Char → List (List Char)
  | [] => [[]]
  | c :: rest =>
    if c = sep then [] :: splitChar sep rest
    else
      match splitChar sep rest with
      | [] => [[c]]
      | g :: gs => (c :: g) :: gs

def jsSplit (sep : Char) (s : String) : List String :=
  (splitChar sep s.data).map (fun l => String.mk l)

def trimChars (l : List Char) : List Char :=
  ((l.dropWhile Char.isWhitespace).reverse.dropWhile Char.isWhitespace).reverse

def jsTrim (s : String) : String :=
  String.mk (trimChars s.data)

def leadsWith : List Char → List Char → Bool
  | [], _ => true
  | _ :: _, [] => false
  | p :: ps, c :: cs => p == c && leadsWith ps cs

def hasSub (pat : List Char) : List Char → Bool
  | [] => leadsWith pat []
  | c :: rest => leadsWith pat (c :: rest) || hasSub pat rest

def jsIncludes (s pat : String) : Bool :=
  hasSub pat.data s.data

/- Client-side local storage, holding the token and user entries used by
src/frontend/src/utils/auth.ts. -/

structure ClientStorage where
  token : Option String
  user : Option String
deriving DecidableEq

/- Translated from getAuthToken in src/frontend/src/utils/auth.ts: the stored
value is returned verbatim unless it is absent, falsy (empty), the literal
strings null or undefined, or whitespace-only. -/
def getAuthToken (st : ClientStorage) : Option String :=
  match st.token with
  | none => none
  | some t =>
    if t = "" ∨ t = "null" ∨ t = "undefined" ∨ jsTrim t = "" then none
    else some t

/- Translated from clearAuthData in src/frontend/src/utils/auth.ts: removes
the token and user entries. -/
def clearAuthData (_st : ClientStorage) : ClientStorage :=
  { token := none, user := none }

/- Translated from isValidToken in src/frontend/src/utils/auth.ts: rejects
absent and sentinel values, then requires exactly three dot-separated
segments. -/
def isValidToken (t : Option String) : Bool :=
  match t with
  | none => false
  | some s =>
    if s = "" ∨ s = "null" ∨ s = "undefined" then false
    else (jsSplit '.' s).length == 3

def authErrorMessage : String :=
  "No valid authentication token found. Please log in."

/- Translated from makeAuthenticatedRequest in
src/frontend/src/utils/auth.ts: reads the stored token, performs the local
structural check, clears the stored auth data and fails when the check
fails, and otherwise attaches the token as a bearer Authorization header.
The returned pair carries the resulting local storage and either the thrown
error message or the outgoing request. -/
def makeAuthenticatedRequest (st : ClientStorage) (url : String)
    (headers : List (String × String)) :
    ClientStorage × Except String (String × List (String × String)) :=
  let token := getAuthToken st
  if isValidToken token then
    (st, Except.ok (url, headers ++ [("Authorization", "Bearer " ++ token.getD "")]))
  else
    (clearAuthData st, Except.error authErrorMessage)

/-- Modelled from the spec: the Credential Record of the external user
store (data model, section 3), restricted to the fields the identity core
reads and mutates. -/
structure Credential where
  subject_id : String
  email : String
  password_hash : String
  email_verified : Bool
deriving DecidableEq

/-- Modelled from the spec: a payload field of a session token, either an
opaque string (the subject identifier) or a numeric timestamp; the Token
Codec of section 4.1 is absent from src. -/
inductive Field where
  | str (s : String)
  | num (n : Nat)
deriving DecidableEq

/-- Modelled from the spec: a compact session token carrying a signed
payload of fields (section 3, Session Token). -/
structure SessionToken where
  fields : List Field
  signature : Nat
deriving DecidableEq

def fieldCode : Field → Nat
  | Field.str s => 2 * s.data.foldl (fun a c => 131 * a + c.toNat) 0
  | Field.num n => 2 * n + 1

/-- Modelled from the spec: signing combines the payload with the
process-wide secret (section 4.1); the concrete mixing function is a
model, only its role in the checks below matters. -/
def sign (secret : Nat) (payload : List Field) : Nat :=
  payload.foldl (fun a f => 1000003 * a + fieldCode f) (secret + 97)

/-- Modelled from the spec: issue embeds subject_id, issuance time and
expiry, then signs the payload with the process-wide secret (section 4.1). -/
def issue (secret : Nat) (sid : String) (ttl now : Nat) : SessionToken :=
  SessionToken.mk [Field.str sid, Field.num now, Field.num (now + ttl)]
    (sign secret [Field.str sid, Field.num now, Field.num (now + ttl)])

/-- Modelled from the spec: verify fails when the structure is not exactly
the three required fields, when the signature mismatches, or when now is at
or past the expiry; otherwise it returns the embedded subject_id
(section 4.1). -/
def verify (secret : Nat) (tok : SessionToken) (now : Nat) : Option String :=
  match tok.fields with
  | [Field.str sid, Field.num _iat, Field.num exp] =>
    if tok.signature = sign secret tok.fields then
      if now < exp then some sid else none
    else none
  | _ => none

/-- Modelled from the spec: the single-use recovery token (data model,
section 3); the Password Recovery Flow of section 4.3 is absent from src. -/
structure RecoveryToken where
  value : String
  subject_id : String
  expires_at : Nat
  consumed : Bool
deriving DecidableEq

/-- Modelled from the spec: the server state the recovery flow touches, the
credential records and the live recovery tokens. -/
structure CoreState where
  creds : List Credential
  rtokens : List RecoveryToken
deriving DecidableEq

inductive ResetErr where
  | invalidOrExpired
deriving DecidableEq

def findCredByEmail (creds : List Credential) (email : String) : Option Credential :=
  creds.find? (fun c => c.email == email)

def findToken (l : List RecoveryToken) (v : String) : Option RecoveryToken :=
  l.find? (fun t => t.value == v)

/-- Modelled from the spec: password hashing is an opaque one-way function;
modelled as a tagging encoding. -/
def hashPw (p : String) : String := "H(" ++ p ++ ")"

def setConsumed (l : List RecoveryToken) (v : String) : List RecoveryToken :=
  l.map (fun t => if t.value = v then { t with consumed := true } else t)

def updatePasswordHash (creds : List Credential) (sid h : String) : List Credential :=
  creds.map (fun c => if c.subject_id = sid then { c with password_hash := h } else c)

/-- Modelled from the spec: completeReset is absent from src; it looks up
the recovery token by value, fails with InvalidOrExpired when the token is
absent, already consumed or past its expiry, and on success updates the
credential hash and marks the token consumed (section 4.3). -/
def completeReset (st : CoreState) (tokenValue newPassword : String) (now : Nat) :
    Except ResetErr CoreState :=
  match findToken st.rtokens tokenValue with
  | none => Except.error ResetErr.invalidOrExpired
  | some t =>
    if t.consumed = true then Except.error ResetErr.invalidOrExpired
    else if t.expires_at ≤ now then Except.error ResetErr.invalidOrExpired
    else Except.ok
      { creds := updatePasswordHash st.creds t.subject_id (hashPw newPassword)
        rtokens := setConsumed st.rtokens tokenValue }

/-- Runs a sequence of completeReset calls in order, keeping the state
unchanged when a call fails. -/
def runResets (st : CoreState) : List (String × String × Nat) → CoreState
  | [] => st
  | call :: rest =>
    match completeReset st call.1 call.2.1 call.2.2 with
    | Except.ok st2 => runResets st2 rest
    | Except.error _ => runResets st rest

/-- Tokens with the given value are all marked consumed in the state. -/
def allConsumed (st : CoreState) (v : String) : Prop :=
  ∀ t ∈ st.rtokens, t.value = v → t.consumed = true

def resetAck : String := "reset-requested"

/-- Modelled from the spec: requestReset is absent from src; it always
returns the same generic acknowledgement, and when the email exists it
upserts a fresh recovery token for the subject, invalidating any prior one
(section 4.3). -/
def requestReset (st : CoreState) (email fresh : String) (now : Nat) :
    String × CoreState :=
  match findCredByEmail st.creds email with
  | some c =>
    (resetAck,
      { st with rtokens :=
          RecoveryToken.mk fresh c.subject_id (now + 3600) false ::
            st.rtokens.filter (fun t => t.subject_id != c.subject_id) })
  | none => (resetAck, st)

/-- Modelled from the spec: the per-subject verification ticket (data
model, section 3); the Email Verification Flow of section 4.4 is absent
from src. -/
structure VerificationTicket where
  subject_id : String
  resend_count : Nat
  last_sent_at : Nat
deriving DecidableEq

inductive ResendErr where
  | cooldownActive
deriving DecidableEq

/-- Cooldown window of 60 seconds, matching the resend cooldown in
EmailVerificationPrompt (src/unnamed/part_002, line 43). -/
def cooldown_window : Nat := 60

def findTicket (l : List VerificationTicket) (sid : String) : Option VerificationTicket :=
  l.find? (fun t => t.subject_id == sid)

def refreshTicket (now : Nat) (sid : String) (u : VerificationTicket) : VerificationTicket :=
  if (u.subject_id == sid) = true then
    VerificationTicket.mk u.subject_id (u.resend_count + 1) now
  else u

/-- Modelled from the spec: issueVerification is absent from src; it
rejects with CooldownActive while now - last_sent_at < cooldown_window and
otherwise creates or refreshes the ticket, incrementing resend_count and
updating last_sent_at (section 4.4). -/
def issueVerification (tickets : List VerificationTicket) (sid : String) (now : Nat) :
    Except ResendErr (List VerificationTicket) :=
  match findTicket tickets sid with
  | some t =>
    if now - t.last_sent_at < cooldown_window then Except.error ResendErr.cooldownActive
    else Except.ok (tickets.map (refreshTicket now sid))
  | none => Except.ok (VerificationTicket.mk sid 1 now :: tickets)

inductive LoginOutcome where
  | notConfirmed
  | badCredentials
  | adapterError
deriving DecidableEq

/-- Modelled from the spec: the detail string of a failed login as the
client observes it; adapter and store failures surface as a generic server
error (sections 4.2 and 7). -/
def loginDetail : LoginOutcome → String
  | LoginOutcome.notConfirmed => "Email not confirmed"
  | LoginOutcome.badCredentials => "Invalid credentials"
  | LoginOutcome.adapterError => "Internal server error"

/-- Modelled from the spec: the outcome of the probe login that the client
status check performs with a throwaway password; when the store is
unreachable the failure is an adapter error, otherwise an unverified
credential yields the not-confirmed detail and a verified one a
wrong-password failure (sections 4.2 and 7). -/
def loginCheckOutcome (cred : Credential) (storeOk : Bool) : LoginOutcome :=
  if storeOk = false then LoginOutcome.adapterError
  else if cred.email_verified = false then LoginOutcome.notConfirmed
  else LoginOutcome.badCredentials

/-- Translated from handleCheckVerification in EmailVerificationPrompt
(src/unnamed/part_002, lines 55-89): the client reports the email as
verified exactly when the login error detail does not contain the substring
Email not confirmed; a missing detail also counts as verified. -/
def handleCheckVerification (detail : Option String) : Bool :=
  match detail with
  | some d => !(jsIncludes d "Email not confirmed")
  | none => true

/-- Unverified subject used to evaluate the status check at a failing
input. -/
def u2 : Credential := Credential.mk "u2" "u2@example.com" "H0" false

inductive ResetSubmitOutcome where
  | validationError (msg : String)
  | resetSuccess
  | serverError (msg : String)
deriving DecidableEq

structure ResetSubmitResult where
  storage : ClientStorage
  outcome : ResetSubmitOutcome
  routedToLogin : Bool
deriving DecidableEq

/-- Translated from PasswordResetPage.handleSubmit in RegisterForm.tsx
(lines 746-805): client-side validation, then the reset request; on a
successful response the page shows success and routes back to the login
page, and the handler performs no local storage writes on any path. -/
def handleResetSubmit (password confirmPassword accessToken : String)
    (st : ClientStorage) (respOk : Bool) (detail : Option String) : ResetSubmitResult :=
  if jsTrim password = "" then
    ResetSubmitResult.mk st (ResetSubmitOutcome.validationError "Password is required") false
  else if password.length < 6 then
    ResetSubmitResult.mk st
      (ResetSubmitOutcome.validationError "Password must be at least 6 characters long") false
  else if password ≠ confirmPassword then
    ResetSubmitResult.mk st (ResetSubmitOutcome.validationError "Passwords do not match") false
  else if accessToken = "" then
    ResetSubmitResult.mk st
      (ResetSubmitOutcome.validationError
        "Invalid reset session. Please request a new password reset.") false
  else if respOk then
    ResetSubmitResult.mk st ResetSubmitOutcome.resetSuccess true
  else
    ResetSubmitResult.mk st
      (ResetSubmitOutcome.serverError
        (detail.getD "Failed to reset password. Please try again.")) false

structure ResetResponse where
  ok : Bool
  detail : Option String
deriving DecidableEq

/-- Modelled from the spec: the wire response of completeReset; a success
is a bare acknowledgement that carries no session token (section 4.3). -/
def resetResponseOf : Except ResetErr CoreState → ResetResponse
  | Except.ok _ => ResetResponse.mk true none
  | Except.error ResetErr.invalidOrExpired =>
      ResetResponse.mk false (some "Invalid or expired reset token")

/- Concrete states used by the witnesses. -/

def resetSt0 : CoreState :=
  CoreState.mk [Credential.mk "u1" "u1@example.com" "H0" true]
    [RecoveryToken.mk "T1" "u1" 3600 false]

def resetSt1 : CoreState :=
  CoreState.mk [Credential.mk "u1" "u1@example.com" (hashPw "P2") true]
    [RecoveryToken.mk "T1" "u1" 3600 true]

def tok1 : SessionToken :=
  SessionToken.mk [Field.str "u1", Field.num 0, Field.num 5]
    (sign 7 [Field.str "u1", Field.num 0, Field.num 5])

def tok2 : SessionToken :=
  SessionToken.mk [Field.str "u1", Field.num 0, Field.num 5] 0

def tok3 : SessionToken :=
  SessionToken.mk [Field.str "u1"] 0

/- Helper lemmas on the JavaScript string embedding. -/

theorem splitChar_eq_single (sep : Char) (l : List Char)
    (h : ∀ c ∈ l, ¬ c = sep) : splitChar sep l = [l] := by
  induction l with
  | nil => rfl
  | cons c rest ih =>
    have hc : ¬ c = sep := h c (List.mem_cons_self c rest)
    have hrest : ∀ x ∈ rest, ¬ x = sep := fun x hx => h x (List.mem_cons_of_mem c hx)
    simp only [splitChar, if_neg hc, ih hrest]

theorem trimChars_eq_nil (l : List Char) (h : trimChars l = []) :
    ∀ c ∈ l, c.isWhitespace = true := by
  unfold trimChars at h
  rw [List.reverse_eq_nil_iff, List.dropWhile_eq_nil_iff] at h
  intro c hc
  have hc2 : c ∈ l.takeWhile Char.isWhitespace ++ l.dropWhile Char.isWhitespace := by
    rw [List.takeWhile_append_dropWhile]
    exact hc
  rcases List.mem_append.mp hc2 with h1 | h2
  · exact List.mem_takeWhile_imp h1
  · exact h c (List.mem_reverse.mpr h2)

theorem jsTrim_empty_split (t : String) (h : jsTrim t = "") :
    (jsSplit '.' t).length = 1 := by
  have hl : trimChars t.data = [] := congrArg String.data h
  have hws := trimChars_eq_nil t.data hl
  have hns : ∀ c ∈ t.data, ¬ c = '.' := by
    intro c hc heq
    have hw := hws c hc
    rw [heq] at hw
    exact absurd hw (by decide)
  simp [jsSplit, splitChar_eq_single '.' t.data hns]

theorem len3_no_sentinel (t : String) (h3 : (jsSplit '.' t).length = 3) :
    ¬(t = "" ∨ t = "null" ∨ t = "undefined" ∨ jsTrim t = "") := by
  rintro (rfl | rfl | rfl | htrim)
  · exact absurd h3 (by decide)
  · exact absurd h3 (by decide)
  · exact absurd h3 (by decide)
  · have := jsTrim_empty_split t htrim
    omega

theorem getAuthToken_some (st : ClientStorage) (t : String) (ht : st.token = some t)
    (hs : ¬(t = "" ∨ t = "null" ∨ t = "undefined" ∨ jsTrim t = "")) :
    getAuthToken st = some t := by
  simp only [getAuthToken, ht]
  rw [if_neg hs]

theorem getAuthToken_eq_some (st : ClientStorage) (t : String)
    (h : getAuthToken st = some t) :
    st.token = some t ∧ ¬(t = "" ∨ t = "null" ∨ t = "undefined" ∨ jsTrim t = "") := by
  unfold getAuthToken at h
  cases htok : st.token with
  | none =>
    rw [htok] at h
    cases h
  | some u =>
    rw [htok] at h
    have h2 : (if u = "" ∨ u = "null" ∨ u = "undefined" ∨ jsTrim u = "" then none
        else some u) = some t := h
    by_cases hc : u = "" ∨ u = "null" ∨ u = "undefined" ∨ jsTrim u = ""
    · rw [if_pos hc] at h2
      cases h2
    · rw [if_neg hc] at h2
      injection h2 with he
      subst he
      exact ⟨rfl, hc⟩

theorem isValidToken_some (t : String)
    (hns : ¬(t = "" ∨ t = "null" ∨ t = "undefined")) :
    isValidToken (some t) = ((jsSplit '.' t).length == 3) := by
  simp only [isValidToken]
  rw [if_neg hns]

theorem no_sentinel_weak (t : String)
    (hns : ¬(t = "" ∨ t = "null" ∨ t = "undefined" ∨ jsTrim t = "")) :
    ¬(t = "" ∨ t = "null" ∨ t = "undefined") := by
  intro h
  rcases h with h | h | h
  · exact hns (Or.inl h)
  · exact hns (Or.inr (Or.inl h))
  · exact hns (Or.inr (Or.inr (Or.inl h)))

theorem guard_true_iff (st : ClientStorage) :
    isValidToken (getAuthToken st) = true ↔
      ∃ t, st.token = some t ∧ (jsSplit '.' t).length = 3 := by
  constructor
  · intro hv
    cases hga : getAuthToken st with
    | none =>
      rw [hga] at hv
      simp only [isValidToken] at hv
      cases hv
    | some t =>
      rw [hga] at hv
      obtain ⟨htok, hns⟩ := getAuthToken_eq_some st t hga
      rw [isValidToken_some t (no_sentinel_weak t hns), beq_iff_eq] at hv
      exact ⟨t, htok, hv⟩
  · rintro ⟨t, htok, h3⟩
    have hns := len3_no_sentinel t h3
    have hget : getAuthToken st = some t := getAuthToken_some st t htok hns
    rw [hget, isValidToken_some t (no_sentinel_weak t hns), beq_iff_eq]
    exact h3

/-- C9: getAuthToken returns none exactly when no token is stored or the
stored string is the literal null, the literal undefined, or whitespace-only
(the empty string included); in every other case it returns the stored
string verbatim. -/
theorem c9_getAuthToken_sentinel_filtering (st : ClientStorage) :
    (getAuthToken st = none ↔
      st.token = none ∨
        ∃ t, st.token = some t ∧ (t = "null" ∨ t = "undefined" ∨ jsTrim t = "")) ∧
    (∀ t, st.token = some t →
      ¬(t = "null" ∨ t = "undefined" ∨ jsTrim t = "") → getAuthToken st = some t) := by
  constructor
  · constructor
    · intro hnone
      cases htok : st.token with
      | none => exact Or.inl rfl
      | some t =>
        refine Or.inr ⟨t, rfl, ?_⟩
        by_cases hcond : t = "" ∨ t = "null" ∨ t = "undefined" ∨ jsTrim t = ""
        · rcases hcond with rfl | h | h | h
          · exact Or.inr (Or.inr (by decide))
          · exact Or.inl h
          · exact Or.inr (Or.inl h)
          · exact Or.inr (Or.inr h)
        · have hget : getAuthToken st = some t := getAuthToken_some st t htok hcond
          rw [hget] at hnone
          cases hnone
    · intro h
      rcases h with hnone | ⟨t, htok, hs⟩
      · unfold getAuthToken
        rw [hnone]
      · have hcond : t = "" ∨ t = "null" ∨ t = "undefined" ∨ jsTrim t = "" := by
          rcases hs with h | h | h
          · exact Or.inr (Or.inl h)
          · exact Or.inr (Or.inr (Or.inl h))
          · exact Or.inr (Or.inr (Or.inr h))
        unfold getAuthToken
        rw [htok]
        show (if t = "" ∨ t = "null" ∨ t = "undefined" ∨ jsTrim t = "" then none
          else some t) = (none : Option String)
        rw [if_pos hcond]
  · intro t2 ht2 hns
    refine getAuthToken_some st t2 ht2 ?_
    rintro (rfl | h | h | h)
    · exact hns (Or.inr (Or.inr (by decide)))
    · exact hns (Or.inl h)
    · exact hns (Or.inr (Or.inl h))
    · exact hns (Or.inr (Or.inr h))

theorem c9_witness :
    getAuthToken (ClientStorage.mk (some "tok.en.x") none) = some "tok.en.x" :=
  (c9_getAuthToken_sentinel_filtering (ClientStorage.mk (some "tok.en.x") none)).2
    "tok.en.x" rfl (by decide)

/-- C7: makeAuthenticatedRequest fails (never issuing the request) exactly
when the stored token is absent or does not split into exactly three
dot-separated segments; otherwise it issues the request with the stored
token attached verbatim as a bearer Authorization header.  The guard is a
pure function of the stored value, so it contacts no server. -/
theorem c7_session_guard_attach (st : ClientStorage) (url : String)
    (hs : List (String × String)) :
    ((∃ e, (makeAuthenticatedRequest st url hs).2 = Except.error e) ↔
      st.token = none ∨ ∃ t, st.token = some t ∧ (jsSplit '.' t).length ≠ 3) ∧
    (∀ t, st.token = some t → (jsSplit '.' t).length = 3 →
      (makeAuthenticatedRequest st url hs).2 =
        Except.ok (url, hs ++ [("Authorization", "Bearer " ++ t)])) := by
  by_cases hv : isValidToken (getAuthToken st) = true
  · obtain ⟨t, htok, h3⟩ := (guard_true_iff st).mp hv
    have hget : getAuthToken st = some t := getAuthToken_some st t htok (len3_no_sentinel t h3)
    have hres : (makeAuthenticatedRequest st url hs).2 =
        Except.ok (url, hs ++ [("Authorization", "Bearer " ++ t)]) := by
      unfold makeAuthenticatedRequest
      rw [hget]
      rw [if_pos (hget ▸ hv)]
      rfl
    constructor
    · constructor
      · rintro ⟨e, he⟩
        rw [hres] at he
        cases he
      · rintro (h | ⟨t2, ht2, h32⟩)
        · rw [htok] at h
          cases h
        · rw [htok] at ht2
          injection ht2 with he
          subst he
          exact absurd h3 h32
    · intro t2 ht2 h32
      rw [htok] at ht2
      injection ht2 with he
      subst he
      exact hres
  · have hres : (makeAuthenticatedRequest st url hs).2 = Except.error authErrorMessage := by
      unfold makeAuthenticatedRequest
      rw [if_neg hv]
    constructor
    · constructor
      · intro _
        cases htok : st.token with
        | none => exact Or.inl rfl
        | some t =>
          refine Or.inr ⟨t, rfl, ?_⟩
          intro h3
          exact hv ((guard_true_iff st).mpr ⟨t, htok, h3⟩)
      · intro _
        exact ⟨authErrorMessage, hres⟩
    · intro t ht2 h3
      exact absurd ((guard_true_iff st).mpr ⟨t, ht2, h3⟩) hv

theorem c7_witness :
    (makeAuthenticatedRequest (ClientStorage.mk (some "a.b.c") none) "url1" []).2 =
      Except.ok ("url1", [] ++ [("Authorization", "Bearer " ++ "a.b.c")]) :=
  (c7_session_guard_attach (ClientStorage.mk (some "a.b.c") none) "url1" []).2
    "a.b.c" rfl (by decide)

/-- C10: whenever makeAuthenticatedRequest finds the stored token absent or
structurally invalid, it removes both the token and user entries from the
local storage and throws, so getAuthToken on the resulting storage returns
none. -/
theorem c10_purge_on_failed_attach (st : ClientStorage) (url : String)
    (hs : List (String × String))
    (h : st.token = none ∨ ∃ t, st.token = some t ∧ (jsSplit '.' t).length ≠ 3) :
    (makeAuthenticatedRequest st url hs).1.token = none ∧
    (makeAuthenticatedRequest st url hs).1.user = none ∧
    (makeAuthenticatedRequest st url hs).2 = Except.error authErrorMessage ∧
    getAuthToken (makeAuthenticatedRequest st url hs).1 = none := by
  have hbad : ¬ isValidToken (getAuthToken st) = true := by
    intro hv
    obtain ⟨t, htok, h3⟩ := (guard_true_iff st).mp hv
    rcases h with hnone | ⟨t2, ht2, h32⟩
    · rw [hnone] at htok
      cases htok
    · rw [ht2] at htok
      injection htok with he
      subst he
      exact h32 h3
  have hres : makeAuthenticatedRequest st url hs =
      (clearAuthData st, Except.error authErrorMessage) := by
    unfold makeAuthenticatedRequest
    rw [if_neg hbad]
  rw [hres]
  exact ⟨rfl, rfl, rfl, rfl⟩

theorem c10_witness :
    (makeAuthenticatedRequest (ClientStorage.mk (some "garbage") (some "usr")) "url1" []).1.token = none ∧
    (makeAuthenticatedRequest (ClientStorage.mk (some "garbage") (some "usr")) "url1" []).1.user = none ∧
    (makeAuthenticatedRequest (ClientStorage.mk (some "garbage") (some "usr")) "url1" []).2 =
      Except.error authErrorMessage ∧
    getAuthToken (makeAuthenticatedRequest (ClientStorage.mk (some "garbage") (some "usr")) "url1" []).1 = none :=
  c10_purge_on_failed_attach (ClientStorage.mk (some "garbage") (some "usr")) "url1" []
    (Or.inr ⟨"garbage", rfl, by decide⟩)

/-- C1: for every valid subject and positive ttl, verifying a freshly
issued token at its issuance time returns the embedded subject_id. -/
theorem c1_token_roundtrip (secret : Nat) (sid : String) (ttl now : Nat)
    (h : 0 < ttl) :
    verify secret (issue secret sid ttl now) now = some sid := by
  unfold issue verify
  show (if sign secret [Field.str sid, Field.num now, Field.num (now + ttl)] =
      sign secret [Field.str sid, Field.num now, Field.num (now + ttl)] then
      if now < now + ttl then some sid else none
    else none) = some sid
  rw [if_pos rfl, if_pos (by omega : now < now + ttl)]

theorem c1_witness : verify 42 (issue 42 "u1" 3600 0) 0 = some "u1" :=
  c1_token_roundtrip 42 "u1" 3600 0 (by decide)

theorem verify_eq_some (secret now : Nat) (tok : SessionToken) (sid : String)
    (h : verify secret tok now = some sid) :
    tok.signature = sign secret tok.fields ∧
      ∃ iat exp, tok.fields = [Field.str sid, Field.num iat, Field.num exp] ∧
        now < exp := by
  unfold verify at h
  split at h
  · rename_i sid2 iat exp heq
    by_cases hsig : tok.signature = sign secret tok.fields
    · rw [if_pos hsig] at h
      by_cases hlt : now < exp
      · rw [if_pos hlt] at h
        injection h with hsid
        subst hsid
        exact ⟨hsig, iat, exp, heq, hlt⟩
      · rw [if_neg hlt] at h
        cases h
    · rw [if_neg hsig] at h
      cases h
  · cases h

/-- C2: a token verifies to a subject only when every check passes, so any
single failing check (expiry reached, signature mismatch, or malformed
structure) makes verify return Invalid, expiry dominating even a correct
signature. -/
theorem c2_verify_failure_modes (secret now : Nat) (tok : SessionToken) :
    (∀ sid iat exp, tok.fields = [Field.str sid, Field.num iat, Field.num exp] →
      exp ≤ now → verify secret tok now = none) ∧
    (tok.signature ≠ sign secret tok.fields → verify secret tok now = none) ∧
    ((∀ sid iat exp, tok.fields ≠ [Field.str sid, Field.num iat, Field.num exp]) →
      verify secret tok now = none) := by
  refine ⟨?_, ?_, ?_⟩
  · intro sid iat exp hf hle
    cases hv : verify secret tok now with
    | none => rfl
    | some s =>
      obtain ⟨_, iat2, exp2, hf2, hlt⟩ := verify_eq_some secret now tok s hv
      rw [hf] at hf2
      simp only [List.cons.injEq, Field.str.injEq, Field.num.injEq, and_true] at hf2
      obtain ⟨_, _, hexp⟩ := hf2
      omega
  · intro hsig
    cases hv : verify secret tok now with
    | none => rfl
    | some s =>
      obtain ⟨hsig2, _⟩ := verify_eq_some secret now tok s hv
      exact absurd hsig2 hsig
  · intro hno
    cases hv : verify secret tok now with
    | none => rfl
    | some s =>
      obtain ⟨_, iat2, exp2, hf2, _⟩ := verify_eq_some secret now tok s hv
      exact absurd hf2 (hno s iat2 exp2)

theorem c2_witness :
    verify 7 tok1 9 = none ∧ verify 7 tok2 1 = none ∧ verify 7 tok3 1 = none :=
  ⟨(c2_verify_failure_modes 7 9 tok1).1 "u1" 0 5 rfl (by decide),
   (c2_verify_failure_modes 7 1 tok2).2.1 (by decide),
   (c2_verify_failure_modes 7 1 tok3).2.2
     (by intro sid iat exp hne; simp [tok3] at hne)⟩

theorem completeReset_consumes (st : CoreState) (tv np : String) (now : Nat)
    (st2 : CoreState) (hok : completeReset st tv np now = Except.ok st2) :
    st2.rtokens = setConsumed st.rtokens tv := by
  unfold completeReset at hok
  cases hfind : findToken st.rtokens tv with
  | none =>
    rw [hfind] at hok
    cases hok
  | some t =>
    rw [hfind] at hok
    have h2 : (if t.consumed = true then Except.error ResetErr.invalidOrExpired
        else if t.expires_at ≤ now then Except.error ResetErr.invalidOrExpired
        else Except.ok
          { creds := updatePasswordHash st.creds t.subject_id (hashPw np)
            rtokens := setConsumed st.rtokens tv }) = Except.ok st2 := hok
    by_cases hc : t.consumed = true
    · rw [if_pos hc] at h2
      cases h2
    · rw [if_neg hc] at h2
      by_cases he : t.expires_at ≤ now
      · rw [if_pos he] at h2
        cases h2
      · rw [if_neg he] at h2
        injection h2 with h3
        rw [← h3]

theorem allConsumed_after (st : CoreState) (v np : String) (now : Nat)
    (st2 : CoreState) (hok : completeReset st v np now = Except.ok st2) :
    allConsumed st2 v := by
  have hrt := completeReset_consumes st v np now st2 hok
  intro u hu hval
  rw [hrt] at hu
  obtain ⟨x, hx, hfx⟩ := List.mem_map.mp hu
  by_cases hxv : x.value = v
  · rw [if_pos hxv] at hfx
    rw [← hfx]
  · rw [if_neg hxv] at hfx
    rw [← hfx] at hval
    exact absurd hval hxv

theorem allConsumed_preserved (st : CoreState) (v tv np : String) (now : Nat)
    (st2 : CoreState) (h : allConsumed st v)
    (hok : completeReset st tv np now = Except.ok st2) :
    allConsumed st2 v := by
  have hrt := completeReset_consumes st tv np now st2 hok
  intro u hu hval
  rw [hrt] at hu
  obtain ⟨x, hx, hfx⟩ := List.mem_map.mp hu
  by_cases hxv : x.value = tv
  · rw [if_pos hxv] at hfx
    rw [← hfx]
  · rw [if_neg hxv] at hfx
    rw [← hfx] at hval
    rw [← hfx]
    exact h x hx hval

theorem allConsumed_runResets (st : CoreState) (v : String)
    (calls : List (String × String × Nat)) (h : allConsumed st v) :
    allConsumed (runResets st calls) v := by
  induction calls generalizing st with
  | nil => exact h
  | cons c rest ih =>
    unfold runResets
    split
    · rename_i st2 hcr
      exact ih st2 (allConsumed_preserved st v c.1 c.2.1 c.2.2 st2 h hcr)
    · exact ih st h

theorem reset_fails_consumed (st : CoreState) (v np : String) (now : Nat)
    (h : allConsumed st v) :
    completeReset st v np now = Except.error ResetErr.invalidOrExpired := by
  unfold completeReset
  cases hfind : findToken st.rtokens v with
  | none => rfl
  | some t =>
    have hfind2 : List.find? (fun x => x.value == v) st.rtokens = some t := hfind
    have hbeq := List.find?_some hfind2
    have ht : t.value = v := eq_of_beq hbeq
    have hmem : t ∈ st.rtokens := List.mem_of_find?_eq_some hfind2
    have hcons : t.consumed = true := h t hmem ht
    show (if t.consumed = true then Except.error ResetErr.invalidOrExpired
      else if t.expires_at ≤ now then Except.error ResetErr.invalidOrExpired
      else Except.ok (CoreState.mk (updatePasswordHash st.creds t.subject_id (hashPw np))
        (setConsumed st.rtokens v))) =
      Except.error ResetErr.invalidOrExpired
    rw [if_pos hcons]

/-- C3: after a successful completeReset with token T, every later
completeReset call with T fails with InvalidOrExpired no matter what other
reset calls run in between, and a consumed or an expired token never
succeeds. -/
theorem c3_recovery_single_use (st : CoreState) (tv np : String) (now : Nat)
    (st2 : CoreState) (hok : completeReset st tv np now = Except.ok st2)
    (calls : List (String × String × Nat)) (np2 : String) (now2 : Nat) :
    completeReset (runResets st2 calls) tv np2 now2 =
      Except.error ResetErr.invalidOrExpired ∧
    (∀ s3 v q n tk, findToken s3.rtokens v = some tk → tk.consumed = true →
      completeReset s3 v q n = Except.error ResetErr.invalidOrExpired) ∧
    (∀ s3 v q n tk, findToken s3.rtokens v = some tk → tk.expires_at ≤ n →
      completeReset s3 v q n = Except.error ResetErr.invalidOrExpired) := by
  refine ⟨?_, ?_, ?_⟩
  · exact reset_fails_consumed (runResets st2 calls) tv np2 now2
      (allConsumed_runResets st2 tv calls (allConsumed_after st tv np now st2 hok))
  · intro s3 v q n tk hfind hcons
    unfold completeReset
    rw [hfind]
    show (if tk.consumed = true then Except.error ResetErr.invalidOrExpired
      else if tk.expires_at ≤ n then Except.error ResetErr.invalidOrExpired
      else Except.ok (CoreState.mk (updatePasswordHash s3.creds tk.subject_id (hashPw q))
        (setConsumed s3.rtokens v))) =
      Except.error ResetErr.invalidOrExpired
    rw [if_pos hcons]
  · intro s3 v q n tk hfind hexp
    unfold completeReset
    rw [hfind]
    show (if tk.consumed = true then Except.error ResetErr.invalidOrExpired
      else if tk.expires_at ≤ n then Except.error ResetErr.invalidOrExpired
      else Except.ok (CoreState.mk (updatePasswordHash s3.creds tk.subject_id (hashPw q))
        (setConsumed s3.rtokens v))) =
      Except.error ResetErr.invalidOrExpired
    by_cases hc : tk.consumed = true
    · rw [if_pos hc]
    · rw [if_neg hc, if_pos hexp]

theorem c3_witness :
    completeReset (runResets resetSt1 []) "T1" "P3" 100 =
      Except.error ResetErr.invalidOrExpired ∧
    completeReset resetSt1 "T1" "P4" 10 = Except.error ResetErr.invalidOrExpired ∧
    completeReset resetSt0 "T1" "P5" 5000 = Except.error ResetErr.invalidOrExpired :=
  ⟨(c3_recovery_single_use resetSt0 "T1" "P2" 0 resetSt1 rfl [] "P3" 100).1,
   (c3_recovery_single_use resetSt0 "T1" "P2" 0 resetSt1 rfl [] "P3" 100).2.1
     resetSt1 "T1" "P4" 10 (RecoveryToken.mk "T1" "u1" 3600 true) rfl rfl,
   (c3_recovery_single_use resetSt0 "T1" "P2" 0 resetSt1 rfl [] "P3" 100).2.2
     resetSt0 "T1" "P5" 5000 (RecoveryToken.mk "T1" "u1" 3600 false) rfl (by decide)⟩

/-- C4: the user-facing response of requestReset is the same generic
acknowledgement whether or not the requested email exists in the credential
store, so the response never reveals account existence. -/
theorem c4_request_reset_noninterference (s1 s2 : CoreState) (e1 e2 f1 f2 : String)
    (n1 n2 : Nat) (h1 : (findCredByEmail s1.creds e1).isSome = true)
    (h2 : findCredByEmail s2.creds e2 = none) :
    (requestReset s1 e1 f1 n1).1 = (requestReset s2 e2 f2 n2).1 := by
  unfold requestReset
  rw [h2]
  cases hf : findCredByEmail s1.creds e1 with
  | none =>
    exfalso
    rw [hf] at h1
    exact absurd h1 (by decide)
  | some c =>
    rfl

theorem c4_witness :
    (requestReset resetSt0 "u1@example.com" "T9" 0).1 =
      (requestReset resetSt0 "nobody@example.com" "T9" 0).1 :=
  c4_request_reset_noninterference resetSt0 resetSt0 "u1@example.com"
    "nobody@example.com" "T9" "T9" 0 0 rfl rfl

theorem refreshTicket_subject (now : Nat) (sid : String) (u : VerificationTicket) :
    (refreshTicket now sid u).subject_id = u.subject_id := by
  unfold refreshTicket
  by_cases hu : (u.subject_id == sid) = true
  · rw [if_pos hu]
  · rw [if_neg hu]

theorem findTicket_map_refresh (l : List VerificationTicket) (sid : String) (now : Nat) :
    findTicket (l.map (refreshTicket now sid)) sid =
      (findTicket l sid).map (refreshTicket now sid) := by
  unfold findTicket
  induction l with
  | nil => rfl
  | cons u rest ih =>
    simp only [List.map_cons]
    by_cases hu : (u.subject_id == sid) = true
    · have hfu : ((refreshTicket now sid u).subject_id == sid) = true := by
        rw [refreshTicket_subject]
        exact hu
      rw [show List.find? (fun t => t.subject_id == sid)
            (refreshTicket now sid u :: List.map (refreshTicket now sid) rest) =
            some (refreshTicket now sid u) from List.find?_cons_of_pos _ hfu,
        show List.find? (fun t => t.subject_id == sid) (u :: rest) = some u from
          List.find?_cons_of_pos _ hu]
      rfl
    · have hfu : ¬((refreshTicket now sid u).subject_id == sid) = true := by
        rw [refreshTicket_subject]
        exact hu
      rw [show List.find? (fun t => t.subject_id == sid)
            (refreshTicket now sid u :: List.map (refreshTicket now sid) rest) =
            List.find? (fun t => t.subject_id == sid)
              (List.map (refreshTicket now sid) rest)
          from List.find?_cons_of_neg _ hfu,
        show List.find? (fun t => t.subject_id == sid) (u :: rest) =
            List.find? (fun t => t.subject_id == sid) rest from
          List.find?_cons_of_neg _ hu,
        ih]

theorem issueVerification_ok_ticket (tickets : List VerificationTicket) (sid : String)
    (now : Nat) (out : List VerificationTicket)
    (hok : issueVerification tickets sid now = Except.ok out) :
    ∃ u, findTicket out sid = some u ∧ u.last_sent_at = now := by
  unfold issueVerification at hok
  cases hfind : findTicket tickets sid with
  | some t =>
    rw [hfind] at hok
    have h2 : (if now - t.last_sent_at < cooldown_window then
        (Except.error ResendErr.cooldownActive : Except ResendErr (List VerificationTicket))
      else Except.ok (tickets.map (refreshTicket now sid))) = Except.ok out := hok
    by_cases hcd : now - t.last_sent_at < cooldown_window
    · rw [if_pos hcd] at h2
      cases h2
    · rw [if_neg hcd] at h2
      injection h2 with hout
      have hfind2 : List.find? (fun x => x.subject_id == sid) tickets = some t := hfind
      have hbeq := List.find?_some hfind2
      have hbeq2 : (t.subject_id == sid) = true := hbeq
      refine ⟨refreshTicket now sid t, ?_, ?_⟩
      · rw [← hout, findTicket_map_refresh, hfind]
        rfl
      · unfold refreshTicket
        rw [if_pos hbeq2]
  | none =>
    rw [hfind] at hok
    injection hok with hout
    refine ⟨VerificationTicket.mk sid 1 now, ?_, rfl⟩
    rw [← hout]
    unfold findTicket
    rw [List.find?_cons_of_pos _ (by simp)]

/-- C5: once issueVerification succeeds at time t, a further call for the
same subject strictly inside the cooldown window is rejected with
CooldownActive, and a call at or past the end of the window succeeds
again. -/
theorem c5_resend_cooldown (tickets : List VerificationTicket) (sid : String)
    (t : Nat) (out : List VerificationTicket)
    (hok : issueVerification tickets sid t = Except.ok out) :
    (∀ t2, t2 - t < cooldown_window →
      issueVerification out sid t2 = Except.error ResendErr.cooldownActive) ∧
    (∀ t2, cooldown_window ≤ t2 - t →
      ∃ out2, issueVerification out sid t2 = Except.ok out2) := by
  obtain ⟨u, hfind, hlast⟩ := issueVerification_ok_ticket tickets sid t out hok
  constructor
  · intro t2 h2
    unfold issueVerification
    rw [hfind]
    show (if t2 - u.last_sent_at < cooldown_window then
        (Except.error ResendErr.cooldownActive : Except ResendErr (List VerificationTicket))
      else Except.ok (out.map (refreshTicket t2 sid))) =
      Except.error ResendErr.cooldownActive
    rw [hlast, if_pos h2]
  · intro t2 h2
    unfold issueVerification
    rw [hfind]
    show ∃ out2, (if t2 - u.last_sent_at < cooldown_window then
        (Except.error ResendErr.cooldownActive : Except ResendErr (List VerificationTicket))
      else Except.ok (out.map (refreshTicket t2 sid))) = Except.ok out2
    rw [hlast, if_neg (by omega)]
    exact ⟨out.map (refreshTicket t2 sid), rfl⟩

theorem c5_witness :
    issueVerification [VerificationTicket.mk "u1" 1 0] "u1" 30 =
      Except.error ResendErr.cooldownActive ∧
    ∃ out2, issueVerification [VerificationTicket.mk "u1" 1 0] "u1" 60 =
      Except.ok out2 :=
  ⟨(c5_resend_cooldown [] "u1" 0 [VerificationTicket.mk "u1" 1 0] rfl).1 30 (by decide),
   (c5_resend_cooldown [] "u1" 0 [VerificationTicket.mk "u1" 1 0] rfl).2 60 (by decide)⟩

/-- C6: the status check as implemented reports the subject as verified
whenever the probe login fails with any detail other than the
not-confirmed substring, so an unrelated failure (an adapter error) makes
it report a subject whose email_verified flag is false as verified. -/
theorem c6_check_status_bug :
    u2.email_verified = false ∧
    handleCheckVerification (some (loginDetail (loginCheckOutcome u2 false))) = true ∧
    handleCheckVerification none = true := by
  refine ⟨rfl, ?_, rfl⟩
  decide

/-- C8: under the client-side validations, a successful reset response
leaves the local storage exactly as it was (no session token or user
record is stored) and routes the user back to the login page, and the
modelled completeReset success response carries no session material. -/
theorem c8_no_auto_session_after_reset (pw cpw tok : String) (stc : ClientStorage)
    (rst : CoreState) (tv np : String) (now : Nat) (rst2 : CoreState)
    (hok : completeReset rst tv np now = Except.ok rst2)
    (h1 : jsTrim pw ≠ "") (h2 : ¬ pw.length < 6) (h3 : pw = cpw) (h4 : tok ≠ "") :
    (resetResponseOf (completeReset rst tv np now)).detail = none ∧
    handleResetSubmit pw cpw tok stc (resetResponseOf (completeReset rst tv np now)).ok
        (resetResponseOf (completeReset rst tv np now)).detail =
      ResetSubmitResult.mk stc ResetSubmitOutcome.resetSuccess true := by
  rw [hok]
  refine ⟨rfl, ?_⟩
  unfold handleResetSubmit
  rw [if_neg h1, if_neg h2, if_neg (fun hne => hne h3), if_neg h4]
  rfl

theorem c8_witness :
    handleResetSubmit "secret1" "secret1" "tok.x.y" (ClientStorage.mk (some "S") (some "U"))
        (resetResponseOf (completeReset resetSt0 "T1" "P2" 0)).ok
        (resetResponseOf (completeReset resetSt0 "T1" "P2" 0)).detail =
      ResetSubmitResult.mk (ClientStorage.mk (some "S") (some "U"))
        ResetSubmitOutcome.resetSuccess true :=
  (c8_no_auto_session_after_reset "secret1" "secret1" "tok.x.y"
    (ClientStorage.mk (some "S") (some "U")) resetSt0 "T1" "P2" 0 resetSt1 rfl
    (by decide) (by decide) rfl (by decide)).2

end ResearchLLM
